import Mathlib

/-!
Verification of the DeriConsole WebSocket trading client.

This development shallowly embeds the state and message-handling logic of
`webSocketClient` (src/webSocketClient.cpp), the signature helper
(src/utils.cpp) and the request encoder (src/deriapi.cpp), and proves the
specified routing, deduplication, authentication and lifecycle properties
against that embedding.

JSON values are modelled by the inductive `Json`, mirroring the value kinds
of `nlohmann::json` (numbers are collapsed into a single integer-carrying
constructor; the claims under study never depend on numeric precision).
`Json.contains`, `Json.get` and `Json.dump` mirror `contains`, `operator[]`
(read on a present key) and `dump()`.  Implicit conversions of a non-string
JSON value to `std::string` throw `nlohmann::json::type_error`, which the
source catches in its top-level `catch`; those paths are modelled explicitly
as a `jsonException` outcome.
-/

inductive Json where
  | null : Json
  | bool (b : Bool) : Json
  | num (n : Int) : Json
  | str (s : String) : Json
  | arr (elems : List Json) : Json
  | obj (members : List (String × Json)) : Json

/-- Mirrors `nlohmann::json::contains(key)`: true only on objects that have
the key. -/
def Json.contains : Json → String → Bool
  | .obj members, k => members.any (fun kv => kv.fst == k)
  | _, _ => false

/-- Mirrors read access `j[key]` on an object known (or checked) to contain
`key`; returns `null` outside that contract. -/
def Json.get : Json → String → Json
  | .obj members, k =>
    match members.find? (fun kv => kv.fst == k) with
    | some kv => kv.snd
    | none => .null
  | _, _ => .null

def Json.isObj : Json → Bool
  | .obj _ => true
  | _ => false

def Json.isArr : Json → Bool
  | .arr _ => true
  | _ => false

def Json.isStr : Json → Bool
  | .str _ => true
  | _ => false

def Json.isNum : Json → Bool
  | .num _ => true
  | _ => false

def Json.isBool : Json → Bool
  | .bool _ => true
  | _ => false

/-- Mirrors `j == "literal"` in nlohmann: equal iff `j` is a string with that
content (cross-type comparison is false). -/
def Json.isStrEq : Json → String → Bool
  | .str s, t => s == t
  | _, _ => false

/-- Extracts the string content; used only under an `isStr` guard, matching
the implicit `std::string` conversion that would otherwise throw. -/
def Json.asString : Json → String
  | .str s => s
  | _ => ""

/-- JSON string escaping for serialization (quote and backslash; other
characters pass through — the dump is used only for equality comparison). -/
def escapeChar (c : Char) : String :=
  if c = '"' then "\\\"" else if c = '\\' then "\\\\" else String.singleton c

def escapeString (s : String) : String :=
  String.join (s.data.map escapeChar)

mutual

/-- Mirrors `nlohmann::json::dump()`: the canonical serialization used by the
dedup cache (`m_lastData`) for equality comparison. -/
def Json.dump : Json → String
  | .null => "null"
  | .bool b => if b then "true" else "false"
  | .num n => toString n
  | .str s => "\"" ++ escapeString s ++ "\""
  | .arr elems => "[" ++ Json.dumpList elems ++ "]"
  | .obj members => "\x7b" ++ Json.dumpMembers members ++ "\x7d"

def Json.dumpList : List Json → String
  | [] => ""
  | [j] => j.dump
  | j :: rest => j.dump ++ "," ++ Json.dumpList rest

def Json.dumpMembers : List (String × Json) → String
  | [] => ""
  | [kv] => "\"" ++ escapeString kv.fst ++ "\":" ++ kv.snd.dump
  | kv :: rest => "\"" ++ escapeString kv.fst ++ "\":" ++ kv.snd.dump ++ "," ++ Json.dumpMembers rest

end

/-- Accepted `data` kinds in the push-dedup code: the three explicit branches
`is_object`, `is_array`, `is_string || is_number || is_boolean`. -/
def Json.isAccepted (j : Json) : Bool :=
  j.isObj || j.isArr || j.isStr || j.isNum || j.isBool

/-- Lookup in `std::map<std::string, std::string>` (`m_lastData.find`). -/
def mapFind? (m : List (String × String)) (k : String) : Option String :=
  match m with
  | [] => none
  | kv :: rest => if kv.fst == k then some kv.snd else mapFind? rest k

/-- Insert-or-assign, `m_lastData[k] = v`. -/
def mapInsert (m : List (String × String)) (k v : String) : List (String × String) :=
  match m with
  | [] => [(k, v)]
  | kv :: rest => if kv.fst == k then (k, v) :: rest else kv :: mapInsert rest k v

/-- Erase, `m_lastData.erase(k)`. -/
def mapErase (m : List (String × String)) (k : String) : List (String × String) :=
  match m with
  | [] => []
  | kv :: rest => if kv.fst == k then mapErase rest k else kv :: mapErase rest k

/-- Insert into `std::set<std::string>` (`m_subscribedChannels.insert`). -/
def setInsert (s : List String) (c : String) : List String :=
  if s.contains c then s else c :: s

/-- The mutable fields of `webSocketClient` that the message/subscription
logic reads and writes (the socket, endpoint and thread are external). -/
structure ClientState where
  m_connected : Bool
  m_authenticated : Bool
  m_waitingForResponse : Bool
  m_accessToken : String
  m_lastData : List (String × String)
  m_subscribedChannels : List String
deriving Repr, DecidableEq

/-- Field values established by the `webSocketClient` constructor
(`m_connected(false), m_authenticated(false), m_waitingForResponse(false)`;
`m_accessToken` default-constructed empty; both containers empty). -/
def initialState : ClientState :=
  { m_connected := false
    m_authenticated := false
    m_waitingForResponse := false
    m_accessToken := ""
    m_lastData := []
    m_subscribedChannels := [] }

/-- The named reply handlers of `webSocketClient` (`on_message_auth`,
`on_message_summary`, `on_message_buy`, `on_message_cancel`,
`on_message_orderBook`, `on_message_modify`, `on_message_positions`).
Their bodies only print, so an invocation is recorded as an event. -/
inductive Handler where
  | auth
  | summary
  | buy
  | cancel
  | orderBook
  | modify
  | positions
deriving Repr, DecidableEq

/-- Observable effects of processing one inbound message: handler
invocations and the diagnostic prints of `on_message`. -/
inductive Event where
  | invalidChannelFormat
  | unsubscribedDrop
  | unexpectedDataType (channel : String)
  | noDataField (channel : String)
  | categoryHandle (channel : String) (data : Json)
  | handle (h : Handler) (arg : Json)
  | errorMsg (msg : String)
  | jsonException

/-- Category dispatch of `handleSubscriptionMessage`: substring match on the
channel name (`channel.find(pat) != npos`). -/
def strContainsSub (s pat : String) : Bool :=
  (s.splitOn pat).length != 1

/-- Outcome of `handleSubscriptionMessage` for a channel/data pair: which
category printer runs, or the type-mismatch diagnostic. -/
inductive CategoryOutcome where
  | tickerUpdate
  | tickerTypeMismatch
  | tradeUpdate
  | tradeTypeMismatch
  | bookUpdate
  | bookTypeMismatch
  | genericUpdate
deriving Repr, DecidableEq

/-- Mirrors `webSocketClient::handleSubscriptionMessage` (lines 185-217):
substring dispatch to ticker/trades/book/generic with per-category payload
type checks. -/
def handleSubscriptionMessage (channel : String) (data : Json) : CategoryOutcome :=
  if strContainsSub channel "ticker" then
    if data.isObj then .tickerUpdate
    else if data.isNum || data.isStr || data.isBool then .tickerUpdate
    else .tickerTypeMismatch
  else if strContainsSub channel "trades" then
    if data.isArr then .tradeUpdate else .tradeTypeMismatch
  else if strContainsSub channel "book" then
    if data.isObj then .bookUpdate else .bookTypeMismatch
  else .genericUpdate

/-- Outcome of the channel-name extraction in `on_message` (lines 382-392):
a determined name, the `Invalid channel format` diagnostic, or a thrown
`type_error` from assigning a non-string `name` to `std::string`. -/
inductive ChannelOutcome where
  | ok (channel : String)
  | invalidFormat
  | typeErr
deriving Repr, DecidableEq

/-- Channel extraction of `on_message`: a `channel` key that is a string, or
an object with a string `name`; a present key of any other shape is the
error branch; an absent key leaves `channel` as the empty string. -/
def extractChannel (params : Json) : ChannelOutcome :=
  if params.contains "channel" then
    if (params.get "channel").isStr then .ok (params.get "channel").asString
    else if (params.get "channel").isObj && (params.get "channel").contains "name" then
      if ((params.get "channel").get "name").isStr then
        .ok ((params.get "channel").get "name").asString
      else .typeErr
    else .invalidFormat
  else .ok ""

/-- The `method == "subscription"` branch of `on_message` (lines 381-428):
channel extraction, the unsubscribed-drop guard on `m_lastData`, and the
per-type dedup against the stored baseline. -/
def handlePush (st : ClientState) (params : Json) : ClientState × List Event :=
  match extractChannel params with
  | .invalidFormat => (st, [.invalidChannelFormat])
  | .typeErr => (st, [.jsonException])
  | .ok channel =>
    match mapFind? st.m_lastData channel with
    | none => (st, [.unsubscribedDrop])
    | some lastDump =>
      if params.contains "data" then
        let data := params.get "data"
        let dedup : ClientState × List Event :=
          if lastDump != data.dump then
            ({ st with m_lastData := mapInsert st.m_lastData channel data.dump },
             [.categoryHandle channel data])
          else (st, [])
        if data.isObj then dedup
        else if data.isArr then dedup
        else if data.isStr || data.isNum || data.isBool then dedup
        else (st, [.unexpectedDataType channel])
      else (st, [.noDataField channel])

/-- The `response.contains("result")` routing chain of `on_message`
(lines 429-446), in source order.  The auth branch first performs
`m_accessToken = result["access_token"]`, which throws when the value is not
a string, leaving both the token and `m_authenticated` unchanged. -/
def routeReply (st : ClientState) (result : Json) : ClientState × List Event :=
  if result.contains "access_token" then
    if (result.get "access_token").isStr then
      ({ st with
          m_accessToken := (result.get "access_token").asString
          m_authenticated := true },
       [.handle .auth result])
    else (st, [.jsonException])
  else if result.contains "balance" then (st, [.handle .summary result])
  else if result.contains "order" then (st, [.handle .buy (result.get "order")])
  else if result.contains "order_id" then (st, [.handle .cancel result])
  else if result.contains "bids" && result.contains "asks" then (st, [.handle .orderBook result])
  else if result.contains "order_id" then (st, [.handle .modify result])
  else if result.isArr then (st, [.handle .positions result])
  else (st, [])

/-- The `response.contains("error")` branch (lines 447-449):
`response["error"].value("message", "Unknown error")`, which throws when
`error` is not an object or carries a non-string `message`. -/
def handleErrorReply (st : ClientState) (err : Json) : ClientState × List Event :=
  if err.isObj then
    if err.contains "message" then
      if (err.get "message").isStr then (st, [.errorMsg (err.get "message").asString])
      else (st, [.jsonException])
    else (st, [.errorMsg "Unknown error"])
  else (st, [.jsonException])

/-- Mirrors `webSocketClient::on_message` (lines 377-453) applied to an
already-parsed payload: push branch, reply-routing branch, error branch;
any other message falls through silently. -/
def on_message (st : ClientState) (response : Json) : ClientState × List Event :=
  if response.contains "method" && (response.get "method").isStrEq "subscription" then
    if response.contains "params" && (response.get "params").isObj then
      handlePush st (response.get "params")
    else (st, [])
  else if response.contains "result" then
    routeReply st (response.get "result")
  else if response.contains "error" then
    handleErrorReply st (response.get "error")
  else (st, [])

/-- Mirrors `webSocketClient::send` (lines 70-76): hands the bytes to the
endpoint (external I/O, error only printed) and touches no client field. -/
def send (st : ClientState) (_message : String) : ClientState := st

/-- Mirrors `webSocketClient::subscribe` (lines 158-163): sends the wire
request, inserts into `m_subscribedChannels`, resets the baseline
`m_lastData[channel] = ""`. -/
def subscribe (st : ClientState) (channel : String) : ClientState :=
  { st with
      m_subscribedChannels := setInsert st.m_subscribedChannels channel
      m_lastData := mapInsert st.m_lastData channel "" }

/-- Mirrors `webSocketClient::unsubscribe` (lines 170-177): sends the wire
request, erases the channel from both containers. -/
def unsubscribe (st : ClientState) (channel : String) : ClientState :=
  { st with
      m_subscribedChannels := st.m_subscribedChannels.filter (fun c => c != channel)
      m_lastData := mapErase st.m_lastData channel }

/-- Mirrors `webSocketClient::isAuthenticated`. -/
def isAuthenticated (st : ClientState) : Bool := st.m_authenticated

/-- Mirrors `webSocketClient::isWaitingForResponse`. -/
def isWaitingForResponse (st : ClientState) : Bool := st.m_waitingForResponse

/-- Mirrors `webSocketClient::getAccessToken`. -/
def getAccessToken (st : ClientState) : String := st.m_accessToken

/-- Operations that mutate the client state during a session: an inbound
message delivered to `on_message`, or a foreground subscribe/unsubscribe. -/
inductive ClientAction where
  | msg (response : Json)
  | sub (channel : String)
  | unsub (channel : String)

def stepAction (st : ClientState) (a : ClientAction) : ClientState × List Event :=
  match a with
  | .msg response => on_message st response
  | .sub channel => (subscribe st channel, [])
  | .unsub channel => (unsubscribe st channel, [])

def runActions (st : ClientState) (as : List ClientAction) : ClientState :=
  as.foldl (fun s a => (stepAction s a).fst) st

/-- Mirrors `utils::getClientSignature` (src/utils.cpp, lines 103-106):
concatenates `timeStamp + "\n" + nonce + "\n" + data` and signs it.
`utils::hmacSha256` wraps OpenSSL's HMAC, an external primitive, so the
keyed hash is passed in as a function. -/
def getClientSignature (hmac : String → String → String)
    (clientSecret timeStamp nonce data : String) : String :=
  hmac clientSecret (timeStamp ++ "\n" ++ nonce ++ "\n" ++ data)

/-- Mirrors `deriapi::authorize` (src/deriapi.cpp, lines 30-50).  The
impure timestamp/nonce generators are passed in as the values they produced
for this request; `hmac` abstracts the OpenSSL HMAC-SHA256 primitive. -/
def authorize (hmac : String → String → String)
    (clientId clientSecret timeStamp nonce : String) : Json :=
  Json.obj
    [("jsonrpc", Json.str "2.0"),
     ("id", Json.num 1),
     ("method", Json.str "public/auth"),
     ("params", Json.obj
       [("grant_type", Json.str "client_signature"),
        ("client_id", Json.str clientId),
        ("timestamp", Json.str timeStamp),
        ("signature", Json.str (getClientSignature hmac clientSecret timeStamp nonce "")),
        ("nonce", Json.str nonce),
        ("scope", Json.str "block_rfq:read_write block_trade:read_write trade:read_write custody:read_write account:read_write wallet:read_write mainaccount")])]

/-- The auth-request callback installed by `main` (src/dericonsole.cpp,
lines 58-61): build `deriapi::authorize(clientId, clientSecret)` and send
it.  The request string handed to `send` is the dump of the request. -/
def authCallbackRequest (hmac : String → String → String)
    (clientId clientSecret timeStamp nonce : String) : String :=
  (authorize hmac clientId clientSecret timeStamp nonce).dump

/-- Connection-lifecycle state relevant to `webSocketClient::close`:
the `m_connected` flag, whether the endpoint's perpetual mode and event
loop are still running, and whether the event-loop thread is joinable. -/
structure ConnState where
  m_connected : Bool
  perpetual : Bool
  loopRunning : Bool
  threadJoinable : Bool
deriving Repr, DecidableEq

/-- Result of one `close()` call: the state after the call, whether a close
error was printed (the early-return path), whether `stop_perpetual`/`stop`
ran, and whether a joinable thread was joined. -/
structure CloseResult where
  state : ConnState
  reportedError : Bool
  stoppedLoop : Bool
  joinedThread : Bool
deriving Repr, DecidableEq

/-- Tail of `close()` after the conditional graceful close (lines 108-113):
stop perpetual mode, stop the loop, join the thread when joinable. -/
def closeTail (s : ConnState) (reported : Bool) : CloseResult :=
  { state := { s with perpetual := false, loopRunning := false, threadJoinable := false }
    reportedError := reported
    stoppedLoop := true
    joinedThread := s.threadJoinable }

/-- Mirrors `webSocketClient::close` (lines 98-114).  `closeErr` is the
external outcome of `m_endpoint.close` on the socket: when it reports an
error the function prints it and returns early, before `stop_perpetual`,
`stop` and the join. -/
def close (s : ConnState) (closeErr : Bool) : CloseResult :=
  if s.m_connected then
    if closeErr then
      { state := s, reportedError := true, stoppedLoop := false, joinedThread := false }
    else
      closeTail { s with m_connected := false } false
  else
    closeTail s false

/-! ### Helper lemmas on the routing chain -/

theorem routeReply_no_modify (st : ClientState) (result : Json) (j : Json) :
    Event.handle Handler.modify j ∉ (routeReply st result).snd := by
  unfold routeReply
  repeat' split
  all_goals simp_all

theorem handlePush_no_handle (st : ClientState) (params : Json) (h : Handler) (j : Json) :
    Event.handle h j ∉ (handlePush st params).snd := by
  unfold handlePush
  repeat' split
  all_goals dsimp only
  all_goals try split_ifs
  all_goals simp_all

theorem handleErrorReply_no_handle (st : ClientState) (err : Json) (h : Handler) (j : Json) :
    Event.handle h j ∉ (handleErrorReply st err).snd := by
  unfold handleErrorReply
  repeat' split
  all_goals simp_all

theorem on_message_no_modify (st : ClientState) (response : Json) (j : Json) :
    Event.handle Handler.modify j ∉ (on_message st response).snd := by
  unfold on_message
  repeat' split
  all_goals first
    | exact handlePush_no_handle _ _ _ _
    | exact routeReply_no_modify _ _ _
    | exact handleErrorReply_no_handle _ _ _ _
    | simp

theorem handlePush_fields (st : ClientState) (params : Json) :
    (handlePush st params).fst.m_authenticated = st.m_authenticated ∧
    (handlePush st params).fst.m_accessToken = st.m_accessToken ∧
    (handlePush st params).fst.m_waitingForResponse = st.m_waitingForResponse ∧
    (handlePush st params).fst.m_subscribedChannels = st.m_subscribedChannels := by
  unfold handlePush
  repeat' split
  all_goals dsimp only
  all_goals try split_ifs
  all_goals simp_all

theorem routeReply_fields (st : ClientState) (result : Json) :
    (routeReply st result).fst.m_authenticated
      = (st.m_authenticated || (result.contains "access_token" && (result.get "access_token").isStr)) ∧
    (routeReply st result).fst.m_accessToken
      = (if result.contains "access_token" && (result.get "access_token").isStr
         then (result.get "access_token").asString else st.m_accessToken) ∧
    (routeReply st result).fst.m_lastData = st.m_lastData ∧
    (routeReply st result).fst.m_waitingForResponse = st.m_waitingForResponse ∧
    (routeReply st result).fst.m_subscribedChannels = st.m_subscribedChannels := by
  unfold routeReply
  repeat' split
  all_goals simp_all

theorem handleErrorReply_state (st : ClientState) (err : Json) :
    (handleErrorReply st err).fst = st := by
  unfold handleErrorReply
  repeat' split
  all_goals simp_all

/-- Shape predicate for a reply that completes authentication in the code:
not a subscription push, carries `result`, and `result.access_token` is a
string (a non-string value throws before `m_authenticated` is set). -/
def isAuthReply (response : Json) : Bool :=
  !(response.contains "method" && (response.get "method").isStrEq "subscription") &&
  (response.contains "result" &&
   ((response.get "result").contains "access_token" &&
    ((response.get "result").get "access_token").isStr))

def actionAuthToken (a : ClientAction) : Option String :=
  match a with
  | .msg response =>
    if isAuthReply response then some ((response.get "result").get "access_token").asString
    else none
  | _ => none

def isAuthAction (a : ClientAction) : Bool := (actionAuthToken a).isSome

/-- Token stored after a sequence of actions, starting from `dflt`: the
token of the last authenticating reply, if any. -/
def lastAuthToken (dflt : String) : List ClientAction → String
  | [] => dflt
  | a :: rest => lastAuthToken ((actionAuthToken a).getD dflt) rest

theorem stepAction_auth (st : ClientState) (a : ClientAction) :
    (stepAction st a).fst.m_authenticated = (st.m_authenticated || isAuthAction a) ∧
    (stepAction st a).fst.m_accessToken = (actionAuthToken a).getD st.m_accessToken := by
  cases a with
  | sub channel => simp [stepAction, subscribe, isAuthAction, actionAuthToken]
  | unsub channel => simp [stepAction, unsubscribe, isAuthAction, actionAuthToken]
  | msg response =>
    obtain ⟨hp1, hp2, hp3, hp4⟩ := handlePush_fields st (response.get "params")
    obtain ⟨hr1, hr2, hr3, hr4, hr5⟩ := routeReply_fields st (response.get "result")
    have he := handleErrorReply_state st (response.get "error")
    simp only [stepAction, isAuthAction, actionAuthToken]
    unfold on_message
    repeat' split
    all_goals simp_all [isAuthReply]
    all_goals
      rcases Bool.eq_false_or_eq_true (response.contains "method") with hm | hm <;> simp_all

theorem runActions_auth (st : ClientState) (as : List ClientAction) :
    (runActions st as).m_authenticated = (st.m_authenticated || as.any isAuthAction) ∧
    (runActions st as).m_accessToken = lastAuthToken st.m_accessToken as := by
  induction as generalizing st with
  | nil => simp [runActions, lastAuthToken]
  | cons a rest ih =>
    rw [show runActions st (a :: rest) = runActions (stepAction st a).fst rest from rfl]
    obtain ⟨ih1, ih2⟩ := ih (stepAction st a).fst
    obtain ⟨h1, h2⟩ := stepAction_auth st a
    constructor
    · rw [ih1, h1]
      simp [Bool.or_assoc]
    · rw [ih2, h2]
      rfl

/-! ### Map and serialization lemmas -/

theorem mapFind?_insert (m : List (String × String)) (k v c : String) :
    mapFind? (mapInsert m k v) c = if k == c then some v else mapFind? m c := by
  induction m with
  | nil => by_cases h : k == c <;> simp [mapInsert, mapFind?, h]
  | cons kv rest ih =>
    unfold mapInsert
    by_cases h : kv.fst == k
    · have hk : kv.fst = k := eq_of_beq h
      by_cases h2 : k == c <;> simp [mapFind?, h, h2, hk]
    · by_cases h2 : k == c
      · have hkc : k = c := eq_of_beq h2
        have hne : (kv.fst == c) = false := by
          rw [← hkc]
          exact Bool.eq_false_iff.mpr (fun hcon => absurd hcon (by simp [h]))
        simp [mapFind?, h, h2, hne, ih]
      · simp [mapFind?, h, h2, ih]

theorem mapFind?_insert_self (m : List (String × String)) (k v : String) :
    mapFind? (mapInsert m k v) k = some v := by
  simp [mapFind?_insert]

theorem mapFind?_erase (m : List (String × String)) (k c : String) :
    mapFind? (mapErase m k) c = if k == c then none else mapFind? m c := by
  induction m with
  | nil => by_cases h : k == c <;> simp [mapErase, mapFind?, h]
  | cons kv rest ih =>
    unfold mapErase
    by_cases h : kv.fst == k
    · have hk : kv.fst = k := eq_of_beq h
      by_cases h2 : k == c
      · simp [h, h2, ih]
      · have hne : (kv.fst == c) = false := by
          rw [hk]
          exact Bool.eq_false_iff.mpr (fun hcon => absurd hcon (by simp [h2]))
        simp [mapFind?, h, h2, hne, ih]
    · by_cases h2 : k == c
      · have hkc : k = c := eq_of_beq h2
        have hne : (kv.fst == c) = false := by
          rw [← hkc]
          exact Bool.eq_false_iff.mpr (fun hcon => absurd hcon (by simp [h]))
        simp [mapFind?, h, h2, hne, ih]
      · simp [mapFind?, h, h2, ih]

theorem toDigitsCore_len (b : Nat) (f : Nat) : ∀ (n : Nat) (l : List Char),
    l.length ≤ (Nat.toDigitsCore b f n l).length := by
  induction f with
  | zero => intro n l; simp [Nat.toDigitsCore]
  | succ f ih =>
    intro n l
    unfold Nat.toDigitsCore
    dsimp only
    split
    · simp
    · exact le_trans (Nat.le_succ _) (ih (n / b) (Nat.digitChar (n % b) :: l))

theorem natRepr_ne_empty (n : Nat) : Nat.repr n ≠ "" := by
  unfold Nat.repr Nat.toDigits
  intro h
  have hl : (Nat.toDigitsCore 10 (n + 1) n []).length = 0 := by
    have hlen := congrArg String.length h
    simpa [List.length_asString] using hlen
  unfold Nat.toDigitsCore at hl
  dsimp only at hl
  split at hl
  · simp at hl
  · have hge := toDigitsCore_len 10 n (n / 10) (Nat.digitChar (n % 10) :: [])
    simp only [List.length_cons, List.length_nil] at hge
    omega

theorem intToString_ne_empty (n : Int) : toString n ≠ "" := by
  cases n with
  | ofNat m => exact natRepr_ne_empty m
  | negSucc m =>
    intro h
    have hlen := congrArg String.length h
    simp [toString] at hlen
    exact absurd hlen.1 (by decide)

/-- The canonical serialization of any JSON value is a non-empty string, so
it can never collide with the empty baseline installed by `subscribe`. -/
theorem dump_ne_empty (j : Json) : j.dump ≠ "" := by
  cases j with
  | null => decide
  | bool b => cases b <;> decide
  | num n => exact intToString_ne_empty n
  | str s =>
    intro h
    have hlen := congrArg String.length h
    simp [Json.dump] at hlen
    exact absurd hlen.1.1 (by decide)
  | arr elems =>
    intro h
    have hlen := congrArg String.length h
    simp [Json.dump] at hlen
    exact absurd hlen.1.1 (by decide)
  | obj members =>
    intro h
    have hlen := congrArg String.length h
    simp [Json.dump] at hlen
    exact absurd hlen.1.1 (by decide)

/-- Canonical shape of a push notification for `channel` carrying `data`
(spec §6: `{method:"subscription", params:{channel:<string>, data:<any>}}`). -/
def pushMsg (channel : String) (data : Json) : Json :=
  Json.obj [("method", Json.str "subscription"),
            ("params", Json.obj [("channel", Json.str channel), ("data", data)])]

/-- Evaluation of `on_message` on a push for channel `c` with accepted data:
drop when unsubscribed, dedup against the stored baseline otherwise. -/
theorem on_message_pushMsg (st : ClientState) (c : String) (data : Json)
    (hacc : data.isAccepted = true) :
    on_message st (pushMsg c data) =
      match mapFind? st.m_lastData c with
      | none => (st, [Event.unsubscribedDrop])
      | some lastDump =>
        if lastDump != data.dump then
          ({ st with m_lastData := mapInsert st.m_lastData c data.dump },
           [Event.categoryHandle c data])
        else (st, []) := by
  have hstep : on_message st (pushMsg c data)
      = handlePush st (Json.obj [("channel", Json.str c), ("data", data)]) := rfl
  rw [hstep]
  unfold handlePush
  have hch : extractChannel (Json.obj [("channel", Json.str c), ("data", data)])
      = ChannelOutcome.ok c := rfl
  rw [hch]
  dsimp only
  cases hfind : mapFind? st.m_lastData c with
  | none => rfl
  | some lastDump =>
    have hdata : (Json.obj [("channel", Json.str c), ("data", data)]).contains "data" = true := rfl
    have hget : (Json.obj [("channel", Json.str c), ("data", data)]).get "data" = data := rfl
    simp only [hdata, if_true, hget]
    cases data <;>
      simp_all [Json.isAccepted, Json.isObj, Json.isArr, Json.isStr, Json.isNum, Json.isBool]

/-! ### C4: dedup behaviour on a subscribed channel -/

/-- Refutation of C4 as stated, at concrete inputs.  First: after
`subscribe("ticker.X")` and one forwarded push of `"p"`, the baseline equals
the payload's serialization, and delivering that same payload twice in
succession invokes the category handler zero times, not exactly once.
Second: a `null` payload, whose canonical serialization `"null"` differs
from the stored baseline `""`, is not forwarded and does not replace the
baseline — the unexpected-data-type branch drops it. -/
theorem c4_counterexample_dedup :
    (on_message (on_message (subscribe initialState "ticker.X")
        (pushMsg "ticker.X" (Json.str "p"))).fst (pushMsg "ticker.X" (Json.str "p"))).snd = [] ∧
    (on_message (on_message (on_message (subscribe initialState "ticker.X")
        (pushMsg "ticker.X" (Json.str "p"))).fst (pushMsg "ticker.X" (Json.str "p"))).fst
        (pushMsg "ticker.X" (Json.str "p"))).snd = [] ∧
    mapFind? (on_message (subscribe initialState "ticker.X")
        (pushMsg "ticker.X" (Json.str "p"))).fst.m_lastData "ticker.X"
      = some (Json.str "p").dump ∧
    Json.null.dump ≠ "" ∧
    mapFind? (subscribe initialState "ticker.X").m_lastData "ticker.X" = some "" ∧
    (on_message (subscribe initialState "ticker.X") (pushMsg "ticker.X" Json.null)).snd
      = [Event.unexpectedDataType "ticker.X"] ∧
    (on_message (subscribe initialState "ticker.X") (pushMsg "ticker.X" Json.null)).fst
      = subscribe initialState "ticker.X" :=
  ⟨rfl, rfl, rfl, by decide, rfl, rfl, rfl⟩

/-- C4 (amended): for a channel present in the subscription map and a push
payload of an accepted type (object, array, string, number, boolean),
delivering the same payload twice in succession invokes the category
handler at most once — exactly once iff the stored baseline differs from
the payload's serialization (the second delivery never invokes it) — and a
payload whose serialization differs from the stored baseline is always
forwarded, with the baseline replaced by its serialization.  Payloads of
other kinds (`null`) are dropped by the unexpected-data-type branch even
when they differ from the baseline. -/
theorem c4_dedup_per_channel (st : ClientState) (c : String) (data : Json)
    (hmem : mapFind? st.m_lastData c ≠ none)
    (hacc : data.isAccepted = true) :
    (on_message (on_message st (pushMsg c data)).fst (pushMsg c data)).snd = [] ∧
    (on_message st (pushMsg c data)).snd
      = (if mapFind? st.m_lastData c = some data.dump then []
         else [Event.categoryHandle c data]) ∧
    mapFind? (on_message st (pushMsg c data)).fst.m_lastData c = some data.dump := by
  obtain ⟨lastDump, hfind⟩ := Option.ne_none_iff_exists'.mp hmem
  have h1 := on_message_pushMsg st c data hacc
  rw [hfind] at h1
  by_cases heq : lastDump = data.dump
  · subst heq
    simp only [bne_self_eq_false, Bool.false_eq_true, if_false] at h1
    refine ⟨?_, ?_, ?_⟩
    · have h2 := on_message_pushMsg st c data hacc
      rw [hfind] at h2
      simp only [bne_self_eq_false, Bool.false_eq_true, if_false] at h2
      rw [h1, h2]
    · rw [h1, hfind]
      simp
    · rw [h1]
      exact hfind
  · have hbne : (lastDump != data.dump) = true := bne_iff_ne.mpr heq
    simp only [hbne, if_true] at h1
    have hfind2 : mapFind? (on_message st (pushMsg c data)).fst.m_lastData c
        = some data.dump := by
      rw [h1]
      exact mapFind?_insert_self ..
    refine ⟨?_, ?_, hfind2⟩
    · have h2 := on_message_pushMsg (on_message st (pushMsg c data)).fst c data hacc
      rw [hfind2] at h2
      simp only [bne_self_eq_false, Bool.false_eq_true, if_false] at h2
      rw [h2]
    · rw [h1, hfind]
      simp [heq]

theorem c4_dedup_witness :
    mapFind? (subscribe initialState "ticker.X").m_lastData "ticker.X" ≠ none ∧
    (Json.str "p").isAccepted = true ∧
    ((on_message (on_message (subscribe initialState "ticker.X")
        (pushMsg "ticker.X" (Json.str "p"))).fst (pushMsg "ticker.X" (Json.str "p"))).snd = [] ∧
     (on_message (subscribe initialState "ticker.X") (pushMsg "ticker.X" (Json.str "p"))).snd
       = (if mapFind? (subscribe initialState "ticker.X").m_lastData "ticker.X"
              = some (Json.str "p").dump
          then [] else [Event.categoryHandle "ticker.X" (Json.str "p")]) ∧
     mapFind? (on_message (subscribe initialState "ticker.X")
        (pushMsg "ticker.X" (Json.str "p"))).fst.m_lastData "ticker.X"
       = some (Json.str "p").dump) :=
  ⟨by decide, by decide,
   c4_dedup_per_channel (subscribe initialState "ticker.X") "ticker.X" (Json.str "p")
     (by decide) (by decide)⟩

/-! ### C10: first push after subscribe is always forwarded -/

/-- C10: `subscribe` (also on re-subscribe) stores the empty baseline for
the channel; every JSON value serializes to a non-empty string; hence the
first push after subscribe with accepted data (object, array, string,
number, boolean) is always forwarded to the category handler and never
deduplicated away. -/
theorem c10_first_push_after_subscribe (st : ClientState) (c : String) (data : Json)
    (hacc : data.isAccepted = true) :
    mapFind? (subscribe st c).m_lastData c = some "" ∧
    data.dump ≠ "" ∧
    on_message (subscribe st c) (pushMsg c data)
      = ({ subscribe st c with
            m_lastData := mapInsert (subscribe st c).m_lastData c data.dump },
         [Event.categoryHandle c data]) := by
  have hbase : mapFind? (subscribe st c).m_lastData c = some "" := by
    simp only [subscribe]
    exact mapFind?_insert_self ..
  refine ⟨hbase, dump_ne_empty data, ?_⟩
  have h1 := on_message_pushMsg (subscribe st c) c data hacc
  rw [hbase] at h1
  have hbne : ("" != data.dump) = true :=
    bne_iff_ne.mpr (fun h => dump_ne_empty data h.symm)
  simp only [hbne, if_true] at h1
  exact h1

theorem c10_first_push_witness :
    (Json.obj [("bids", Json.arr [])]).isAccepted = true ∧
    (mapFind? (subscribe initialState "book.BTC-PERPETUAL.100ms").m_lastData
        "book.BTC-PERPETUAL.100ms" = some "" ∧
     (Json.obj [("bids", Json.arr [])]).dump ≠ "" ∧
     on_message (subscribe initialState "book.BTC-PERPETUAL.100ms")
        (pushMsg "book.BTC-PERPETUAL.100ms" (Json.obj [("bids", Json.arr [])]))
       = ({ subscribe initialState "book.BTC-PERPETUAL.100ms" with
             m_lastData := mapInsert
               (subscribe initialState "book.BTC-PERPETUAL.100ms").m_lastData
               "book.BTC-PERPETUAL.100ms" (Json.obj [("bids", Json.arr [])]).dump },
          [Event.categoryHandle "book.BTC-PERPETUAL.100ms" (Json.obj [("bids", Json.arr [])])])) :=
  ⟨by decide,
   c10_first_push_after_subscribe initialState "book.BTC-PERPETUAL.100ms"
     (Json.obj [("bids", Json.arr [])]) (by decide)⟩

/-! ### C5: unsubscribe finality -/

theorem mapFind?_insert_of_ne_none (m : List (String × String)) (k v c : String)
    (hk : mapFind? m k ≠ none) (hc : mapFind? m c = none) :
    mapFind? (mapInsert m k v) c = none := by
  rw [mapFind?_insert]
  by_cases h : k == c
  · exact absurd hc (eq_of_beq h ▸ hk)
  · simp [h, hc]

theorem handlePush_lastData_none (st : ClientState) (params : Json) (c : String)
    (h : mapFind? st.m_lastData c = none) :
    mapFind? (handlePush st params).fst.m_lastData c = none := by
  unfold handlePush
  repeat' split
  all_goals dsimp only
  all_goals try split_ifs
  all_goals simp_all [mapFind?_insert_of_ne_none]

theorem stepAction_lastData_none (st : ClientState) (a : ClientAction) (c : String)
    (h : mapFind? st.m_lastData c = none) (hne : a ≠ ClientAction.sub c) :
    mapFind? (stepAction st a).fst.m_lastData c = none := by
  cases a with
  | msg response =>
    have hpp := handlePush_lastData_none st (response.get "params") c h
    have hrr := (routeReply_fields st (response.get "result")).2.2.1
    have hee := handleErrorReply_state st (response.get "error")
    simp only [stepAction]
    unfold on_message
    repeat' split
    all_goals simp_all
  | sub channel =>
    have hcc : (channel == c) = false := by
      rcases Bool.eq_false_or_eq_true (channel == c) with ht | hf
      · exact absurd (congrArg ClientAction.sub (eq_of_beq ht)) hne
      · exact hf
    simp [stepAction, subscribe, mapFind?_insert, hcc, h]
  | unsub channel =>
    simp [stepAction, unsubscribe, mapFind?_erase, h]

theorem runActions_lastData_none (st : ClientState) (c : String) (as : List ClientAction)
    (h : mapFind? st.m_lastData c = none) (hno : ∀ a ∈ as, a ≠ ClientAction.sub c) :
    mapFind? (runActions st as).m_lastData c = none := by
  induction as generalizing st with
  | nil => simpa [runActions] using h
  | cons a rest ih =>
    rw [show runActions st (a :: rest) = runActions (stepAction st a).fst rest from rfl]
    exact ih (stepAction st a).fst
      (stepAction_lastData_none st a c h (hno a (List.mem_cons_self a rest)))
      (fun b hb => hno b (List.mem_cons_of_mem a hb))

/-- A push whose extracted channel is not present in `m_lastData` is dropped
before any mutation: the state is returned unchanged and only the
unsubscribed-drop diagnostic is printed. -/
theorem on_message_unsubscribed_drop (st : ClientState) (response : Json) (c : String)
    (hfind : mapFind? st.m_lastData c = none)
    (hm : (response.contains "method" && (response.get "method").isStrEq "subscription") = true)
    (hp : (response.contains "params" && (response.get "params").isObj) = true)
    (hc : extractChannel (response.get "params") = ChannelOutcome.ok c) :
    on_message st response = (st, [Event.unsubscribedDrop]) := by
  unfold on_message
  simp only [hm, hp, if_true]
  unfold handlePush
  rw [hc]
  dsimp only
  rw [hfind]

/-- C5: after `unsubscribe(c)`, as long as no re-subscribe of `c` occurs,
`c` stays absent from the subscription map, and every push notification for
`c` is dropped: the state (including the map) is unchanged and no category
handler is invoked. -/
theorem c5_unsubscribe_finality (st : ClientState) (c : String) (as : List ClientAction)
    (hno : ∀ a ∈ as, a ≠ ClientAction.sub c) :
    mapFind? (runActions (unsubscribe st c) as).m_lastData c = none ∧
    ∀ response : Json,
      (response.contains "method" && (response.get "method").isStrEq "subscription") = true →
      (response.contains "params" && (response.get "params").isObj) = true →
      extractChannel (response.get "params") = ChannelOutcome.ok c →
      on_message (runActions (unsubscribe st c) as) response
        = (runActions (unsubscribe st c) as, [Event.unsubscribedDrop]) := by
  have h0 : mapFind? (unsubscribe st c).m_lastData c = none := by
    simp [unsubscribe, mapFind?_erase]
  have hnone := runActions_lastData_none (unsubscribe st c) c as h0 hno
  exact ⟨hnone, fun response hm hp hc =>
    on_message_unsubscribed_drop _ response c hnone hm hp hc⟩

theorem c5_unsubscribe_finality_witness :
    (∀ a ∈ [ClientAction.msg (pushMsg "other" (Json.str "x"))],
       a ≠ ClientAction.sub "ticker.X") ∧
    mapFind? (runActions (unsubscribe (subscribe initialState "ticker.X") "ticker.X")
        [ClientAction.msg (pushMsg "other" (Json.str "x"))]).m_lastData "ticker.X" = none ∧
    on_message (runActions (unsubscribe (subscribe initialState "ticker.X") "ticker.X")
        [ClientAction.msg (pushMsg "other" (Json.str "x"))])
        (pushMsg "ticker.X" (Json.str "p"))
      = (runActions (unsubscribe (subscribe initialState "ticker.X") "ticker.X")
          [ClientAction.msg (pushMsg "other" (Json.str "x"))],
         [Event.unsubscribedDrop]) := by
  have hno : ∀ a ∈ [ClientAction.msg (pushMsg "other" (Json.str "x"))],
      a ≠ ClientAction.sub "ticker.X" := by
    intro a ha
    rw [List.mem_singleton] at ha
    subst ha
    simp
  have h := c5_unsubscribe_finality (subscribe initialState "ticker.X") "ticker.X"
    [ClientAction.msg (pushMsg "other" (Json.str "x"))] hno
  exact ⟨hno, h.1, h.2 (pushMsg "ticker.X" (Json.str "p")) rfl rfl rfl⟩

/-! ### C3: authentication gating -/

/-- Refutation of C3 as stated: the reply
`{result:{access_token:5}}` carries a `result` object containing the key
`access_token`, yet after processing it the client is not authenticated and
no token is stored — the assignment `m_accessToken = result["access_token"]`
throws on the non-string value before `m_authenticated` is set. -/
theorem c3_counterexample_nonstring_token :
    (Json.obj [("result", Json.obj [("access_token", Json.num 5)])]).contains "result" = true ∧
    ((Json.obj [("result", Json.obj [("access_token", Json.num 5)])]).get "result").contains
        "access_token" = true ∧
    isAuthenticated (runActions initialState
      [ClientAction.msg (Json.obj [("result", Json.obj [("access_token", Json.num 5)])])]) = false ∧
    getAccessToken (runActions initialState
      [ClientAction.msg (Json.obj [("result", Json.obj [("access_token", Json.num 5)])])]) = "" :=
  ⟨rfl, rfl, rfl, rfl⟩

/-- C3 (amended): after any sequence of processed messages, the
authenticated flag is true iff at least one processed reply carried a
`result` containing `access_token` **with a string value**, and the stored
token is the value of the last such reply (initially empty). -/
theorem c3_auth_gating (as : List ClientAction) :
    isAuthenticated (runActions initialState as) = as.any isAuthAction ∧
    getAccessToken (runActions initialState as) = lastAuthToken "" as := by
  have h := runActions_auth initialState as
  simpa [isAuthenticated, getAccessToken, initialState] using h

/-! ### C6: the pending-response flag -/

/-- C6 is a code bug: `m_waitingForResponse` is initialized to `false` by
the constructor and never written again — `send` does not set it and no
reply handling clears it, so `isWaitingForResponse()` is constantly false;
in particular it is false immediately after a `send` with no reply yet,
where the claim (and the busy-wait loops in `main`) expect true. -/
theorem c6_waiting_flag_never_set :
    isWaitingForResponse initialState = false ∧
    (∀ (st : ClientState) (message : String),
      isWaitingForResponse (send st message) = isWaitingForResponse st) ∧
    (∀ (st : ClientState) (a : ClientAction),
      isWaitingForResponse (stepAction st a).fst = isWaitingForResponse st) ∧
    isWaitingForResponse (send initialState "request") = false := by
  refine ⟨rfl, fun st message => rfl, ?_, rfl⟩
  intro st a
  cases a with
  | msg response =>
    have hp := (handlePush_fields st (response.get "params")).2.2.1
    have hr := (routeReply_fields st (response.get "result")).2.2.2.1
    have he := handleErrorReply_state st (response.get "error")
    simp only [stepAction, isWaitingForResponse]
    unfold on_message
    repeat' split
    all_goals simp_all
  | sub channel => rfl
  | unsub channel => rfl

/-! ### C7: close() lifecycle -/

/-- Refutation of C7 as stated: when the client is connected and the
graceful `m_endpoint.close` reports an error, `close()` prints the error
and returns early — the event loop is not stopped, the thread is not
joined, and `m_connected` stays true. -/
theorem c7_counterexample_close_error :
    (close ⟨true, true, true, true⟩ true).stoppedLoop = false ∧
    (close ⟨true, true, true, true⟩ true).joinedThread = false ∧
    (close ⟨true, true, true, true⟩ true).state.threadJoinable = true ∧
    (close ⟨true, true, true, true⟩ true).reportedError = true ∧
    (close ⟨true, true, true, true⟩ true).state.m_connected = true :=
  ⟨rfl, rfl, rfl, rfl, rfl⟩

/-- C7 (amended): whenever the graceful close does not report an error
(in particular whenever the socket was never opened, the connection failed,
or a previous close already cleared `m_connected`), `close()` stops the
event loop and leaves no joinable thread before returning; and a second
`close()` after a completed first one reports no error and leaves the state
unchanged.  Only the early-return path on a reported close error skips the
stop/join. -/
theorem c7_close_idempotent (s : ConnState) (closeErr : Bool)
    (h : s.m_connected = true → closeErr = false) :
    (close s closeErr).reportedError = false ∧
    (close s closeErr).stoppedLoop = true ∧
    (close s closeErr).state.threadJoinable = false ∧
    (close s closeErr).state.m_connected = false ∧
    ∀ e2 : Bool,
      (close (close s closeErr).state e2).reportedError = false ∧
      (close (close s closeErr).state e2).stoppedLoop = true ∧
      (close (close s closeErr).state e2).state = (close s closeErr).state := by
  obtain ⟨sc, sp, sl, sj⟩ := s
  cases sc with
  | false =>
    refine ⟨rfl, rfl, rfl, rfl, fun e2 => ⟨rfl, rfl, rfl⟩⟩
  | true =>
    have hc : closeErr = false := h rfl
    subst hc
    refine ⟨rfl, rfl, rfl, rfl, fun e2 => ⟨rfl, rfl, rfl⟩⟩

theorem c7_close_idempotent_witness :
    ((⟨true, true, true, true⟩ : ConnState).m_connected = true → false = false) ∧
    ((close (⟨true, true, true, true⟩ : ConnState) false).reportedError = false ∧
     (close (⟨true, true, true, true⟩ : ConnState) false).stoppedLoop = true ∧
     (close (⟨true, true, true, true⟩ : ConnState) false).state.threadJoinable = false ∧
     (close (⟨true, true, true, true⟩ : ConnState) false).state.m_connected = false ∧
     ∀ e2 : Bool,
       (close (close (⟨true, true, true, true⟩ : ConnState) false).state e2).reportedError
         = false ∧
       (close (close (⟨true, true, true, true⟩ : ConnState) false).state e2).stoppedLoop
         = true ∧
       (close (close (⟨true, true, true, true⟩ : ConnState) false).state e2).state
         = (close (⟨true, true, true, true⟩ : ConnState) false).state) :=
  ⟨fun _ => rfl, c7_close_idempotent ⟨true, true, true, true⟩ false (fun _ => rfl)⟩

/-! ### C8: undeterminable channel names -/

/-- Refutation of C8 as stated: a subscription push whose params carry no
`channel` key at all is not treated as a parse error — `channel` stays the
empty string and the message proceeds through normal lookup; when the empty
string happens to be a subscribed channel the category handler fires and
the map is updated. -/
theorem c8_counterexample_absent_channel :
    (on_message (subscribe initialState "")
        (Json.obj [("method", Json.str "subscription"),
                   ("params", Json.obj [("data", Json.str "p")])])).snd
      = [Event.categoryHandle "" (Json.str "p")] ∧
    mapFind? (on_message (subscribe initialState "")
        (Json.obj [("method", Json.str "subscription"),
                   ("params", Json.obj [("data", Json.str "p")])])).fst.m_lastData ""
      = some (Json.str "p").dump :=
  ⟨rfl, rfl⟩

/-- C8 (amended): a subscription push whose params contain a `channel` key
that is neither a string nor an object with a string-valued `name` field is
dropped with a parse-error report (the invalid-format diagnostic, or the
caught type error when a `name` field holds a non-string): no category
handler is invoked and the state, including the subscription map, is
unchanged.  A push with the `channel` key absent is not an error: the
channel defaults to the empty string and is processed by normal lookup. -/
theorem c8_malformed_channel_drop (st : ClientState) (response : Json)
    (hm : (response.contains "method" && (response.get "method").isStrEq "subscription") = true)
    (hp : (response.contains "params" && (response.get "params").isObj) = true)
    (hc : (response.get "params").contains "channel" = true)
    (hstr : ((response.get "params").get "channel").isStr = false)
    (hobj : (((response.get "params").get "channel").isObj &&
             ((response.get "params").get "channel").contains "name" &&
             (((response.get "params").get "channel").get "name").isStr) = false) :
    on_message st response
      = (st, [if ((response.get "params").get "channel").isObj &&
                 ((response.get "params").get "channel").contains "name"
              then Event.jsonException else Event.invalidChannelFormat]) := by
  have hext : extractChannel (response.get "params")
      = (if ((response.get "params").get "channel").isObj &&
            ((response.get "params").get "channel").contains "name"
         then ChannelOutcome.typeErr else ChannelOutcome.invalidFormat) := by
    unfold extractChannel
    by_cases hcase : (((response.get "params").get "channel").isObj &&
        ((response.get "params").get "channel").contains "name") = true
    · simp only [hcase] at hobj ⊢
      simp only [Bool.true_and] at hobj
      simp [hc, hstr, hobj]
    · simp [hc, hstr, hcase]
  unfold on_message
  simp only [hm, hp, if_true]
  unfold handlePush
  rw [hext]
  by_cases hcase : (((response.get "params").get "channel").isObj &&
      ((response.get "params").get "channel").contains "name") = true
  · simp [hcase]
  · simp [hcase]

theorem c8_malformed_channel_witness :
    on_message initialState
        (Json.obj [("method", Json.str "subscription"),
                   ("params", Json.obj [("channel", Json.num 7)])])
      = (initialState,
         [if (((Json.obj [("method", Json.str "subscription"),
                 ("params", Json.obj [("channel", Json.num 7)])]).get "params").get
                 "channel").isObj &&
               (((Json.obj [("method", Json.str "subscription"),
                 ("params", Json.obj [("channel", Json.num 7)])]).get "params").get
                 "channel").contains "name"
          then Event.jsonException else Event.invalidChannelFormat]) :=
  c8_malformed_channel_drop initialState
    (Json.obj [("method", Json.str "subscription"),
               ("params", Json.obj [("channel", Json.num 7)])])
    (by decide) (by decide) (by decide) (by decide) (by decide)

/-! ### C9: the authorization request -/

/-- C9: for any HMAC primitive and any timestamp/nonce obtained for the
request, the authorization request built by the auth callback carries
`grant_type = "client_signature"` and a signature equal to the HMAC keyed
by the client secret over `timestamp + "\n" + nonce + "\n" + ""` (empty
data component). -/
theorem c9_authorize_signature (hmac : String → String → String)
    (clientId clientSecret timeStamp nonce : String) :
    ((authorize hmac clientId clientSecret timeStamp nonce).get "params").get "grant_type"
      = Json.str "client_signature" ∧
    ((authorize hmac clientId clientSecret timeStamp nonce).get "params").get "signature"
      = Json.str (hmac clientSecret (timeStamp ++ "\n" ++ nonce ++ "\n" ++ "")) ∧
    getClientSignature hmac clientSecret timeStamp nonce ""
      = hmac clientSecret (timeStamp ++ "\n" ++ nonce ++ "\n" ++ "") :=
  ⟨rfl, rfl, rfl⟩

/-! ### C1 and C2: reply routing precedence -/

/-- C1: a reply whose `result` contains `order_id` but none of
`access_token`, `balance`, `order` is dispatched to `on_message_cancel`
with the whole `result`, leaving the state unchanged; and no input ever
dispatches to `on_message_modify` — the modify branch is unreachable under
the fixed routing precedence. -/
theorem c1_cancel_intercepts_and_modify_unreachable
    (st : ClientState) (response : Json)
    (hm : (response.contains "method" && (response.get "method").isStrEq "subscription") = false)
    (hr : response.contains "result" = true)
    (h1 : (response.get "result").contains "order_id" = true)
    (h2 : (response.get "result").contains "access_token" = false)
    (h3 : (response.get "result").contains "balance" = false)
    (h4 : (response.get "result").contains "order" = false) :
    on_message st response = (st, [Event.handle Handler.cancel (response.get "result")]) ∧
    ∀ (st2 : ClientState) (r : Json) (j : Json),
      Event.handle Handler.modify j ∉ (on_message st2 r).snd := by
  refine ⟨?_, fun st2 r j => on_message_no_modify st2 r j⟩
  unfold on_message routeReply
  simp [hm, hr, h1, h2, h3, h4]

theorem c1_cancel_intercepts_witness :
    on_message initialState
        (Json.obj [("result", Json.obj [("order_id", Json.str "X"), ("time_in_force", Json.str "gtc")])]) =
      (initialState,
       [Event.handle Handler.cancel
          (Json.obj [("order_id", Json.str "X"), ("time_in_force", Json.str "gtc")])]) ∧
    ∀ (st2 : ClientState) (r : Json) (j : Json),
      Event.handle Handler.modify j ∉ (on_message st2 r).snd :=
  c1_cancel_intercepts_and_modify_unreachable initialState
    (Json.obj [("result", Json.obj [("order_id", Json.str "X"), ("time_in_force", Json.str "gtc")])])
    (by decide) (by decide) (by decide) (by decide) (by decide) (by decide)

/-- C2: a reply whose `result` contains both `order` and `order_id` (and
neither `access_token` nor `balance`) is dispatched to `on_message_buy`
with `result.order` as argument, not to the cancel handler: the `order`
predicate is tested strictly before the `order_id` predicate. -/
theorem c2_order_beats_order_id
    (st : ClientState) (response : Json)
    (hm : (response.contains "method" && (response.get "method").isStrEq "subscription") = false)
    (hr : response.contains "result" = true)
    (h1 : (response.get "result").contains "order" = true)
    (_h2 : (response.get "result").contains "order_id" = true)
    (h3 : (response.get "result").contains "access_token" = false)
    (h4 : (response.get "result").contains "balance" = false) :
    on_message st response = (st, [Event.handle Handler.buy ((response.get "result").get "order")]) ∧
    ∀ j : Json, Event.handle Handler.cancel j ∉ (on_message st response).snd := by
  have hmain : on_message st response
      = (st, [Event.handle Handler.buy ((response.get "result").get "order")]) := by
    unfold on_message routeReply
    simp [hm, hr, h1, h3, h4]
  refine ⟨hmain, fun j => ?_⟩
  rw [hmain]
  simp

theorem c2_order_beats_order_id_witness :
    on_message initialState
        (Json.obj [("result", Json.obj [("order", Json.obj [("order_id", Json.str "O1")]), ("order_id", Json.str "O1")])]) =
      (initialState, [Event.handle Handler.buy (Json.obj [("order_id", Json.str "O1")])]) ∧
    ∀ j : Json,
      Event.handle Handler.cancel j ∉
        (on_message initialState
          (Json.obj [("result", Json.obj [("order", Json.obj [("order_id", Json.str "O1")]), ("order_id", Json.str "O1")])])).snd :=
  c2_order_beats_order_id initialState
    (Json.obj [("result", Json.obj [("order", Json.obj [("order_id", Json.str "O1")]), ("order_id", Json.str "O1")])])
    (by decide) (by decide) (by decide) (by decide) (by decide) (by decide)
